import Mathlib

/-!
Verification of the token-counter repository (count_tokens_folder.py and
count_tokens_file.py) against its natural-language specification.

The Python sources are shallowly embedded:
  - file contents are lists of byte values (`List Nat`, each < 256 where relevant);
  - Python strings are lists of Unicode code points (`List Nat`);
  - the external tiktoken encoder is an arbitrary function
    `encode : List Nat → List Nat` (code points to token ids), as the spec
    treats the tokenizer as an external collaborator;
  - the glob matcher `fnmatch.fnmatch` (Python standard library, external to
    the repository) is an arbitrary function `String → String → Bool`;
  - the filesystem is explicit data: a root is missing, a non-directory, or a
    directory holding a flat list of files (`os.walk` flattens the tree and
    filtering only inspects the base filename); a file content of `none`
    models an unreadable file (I/O error on open/read);
  - exceptions are `Except` values;
  - `time.time()` durations are dropped (no claim mentions real time).

Reading a file in Python text mode (`open(path, "r", encoding="utf-8", ...)`)
decodes UTF-8 and applies universal-newline translation; both are embedded
(`utf8DecodeStrict` / `utf8DecodeIgnore` for errors=strict / errors="ignore",
and `universalNewlines`). The decoders are written with a fuel parameter equal
to the input length, which is provably sufficient since every parsed sequence
consumes at least one byte.
-/

namespace TokenCounter

/-- One byte is "printable" for the binary heuristic:
`32 <= byte <= 126 or byte in (9, 10, 13)` (count_tokens_folder.py line 230). -/
def printable_byte (b : Nat) : Bool :=
  (32 ≤ b && b ≤ 126) || b == 9 || b == 10 || b == 13

/-- `FolderTokenCounter._is_binary_file` (count_tokens_folder.py lines 216-236).
Reads up to 1024 leading bytes; an unreadable file (`none`) is binary
(IOError/OSError branch); an empty chunk is text; a chunk holding a null byte
is binary; otherwise binary iff the printable ratio is strictly below 0.7.
The Python float test `printable_chars / len(chunk) < 0.7` is exactly
`10 * printable_chars < 7 * len(chunk)`: with `len(chunk) ≤ 1024` the distance
from `printable_chars / len(chunk)` to 0.7 is at least `1 / 10240` except when
they are equal, far above the rounding error of double division, and equality
makes both tests false. -/
def is_binary_file : Option (List Nat) → Bool
  | none => true
  | some bytes =>
    let chunk := bytes.take 1024
    if chunk = [] then false
    else if 0 ∈ chunk then true
    else decide (10 * (chunk.filter printable_byte).length < 7 * chunk.length)

/-! ## UTF-8 decoding (Python `open(..., encoding="utf-8")`) -/

/-- Lower bound for the second byte of a multi-byte UTF-8 sequence with the
given lead byte (0xA0 after 0xE0, 0x90 after 0xF0, else 0x80). -/
def utf8ContLo (b : Nat) : Nat :=
  if b = 0xE0 then 0xA0 else if b = 0xF0 then 0x90 else 0x80

/-- Upper bound for the second byte of a multi-byte UTF-8 sequence with the
given lead byte (0x9F after 0xED excluding surrogates, 0x8F after 0xF4
excluding values above U+10FFFF, else 0xBF). -/
def utf8ContHi (b : Nat) : Nat :=
  if b = 0xED then 0x9F else if b = 0xF4 then 0x8F else 0xBF

/-- A UTF-8 continuation byte: 0x80-0xBF. -/
def isCont (b : Nat) : Bool := 0x80 ≤ b && b ≤ 0xBF

/-- Parse one UTF-8 scalar value at the head of a byte list, per the rules of
Python's (standard) UTF-8 decoder: ASCII, two-byte leads 0xC2-0xDF, three-byte
leads 0xE0-0xEF, four-byte leads 0xF0-0xF4, with overlongs, surrogates and
values above U+10FFFF rejected via the second-byte bounds. Returns the code
point and the remaining bytes, or `none` on a malformed head. -/
def parseUtf8Char : List Nat → Option (Nat × List Nat)
  | [] => none
  | b :: rest =>
    if b < 0x80 then some (b, rest)
    else if 0xC2 ≤ b && b ≤ 0xDF then
      match rest with
      | c1 :: r =>
        if isCont c1 then some ((b - 0xC0) * 64 + (c1 - 0x80), r) else none
      | [] => none
    else if 0xE0 ≤ b && b ≤ 0xEF then
      match rest with
      | c1 :: c2 :: r =>
        if (utf8ContLo b ≤ c1 && c1 ≤ utf8ContHi b) && isCont c2 then
          some ((b - 0xE0) * 4096 + (c1 - 0x80) * 64 + (c2 - 0x80), r)
        else none
      | _ => none
    else if 0xF0 ≤ b && b ≤ 0xF4 then
      match rest with
      | c1 :: c2 :: c3 :: r =>
        if (utf8ContLo b ≤ c1 && c1 ≤ utf8ContHi b) && (isCont c2 && isCont c3) then
          some ((b - 0xF0) * 262144 + (c1 - 0x80) * 4096 + (c2 - 0x80) * 64 + (c3 - 0x80), r)
        else none
      | _ => none
    else none

/-- Strict UTF-8 decoding (`errors="strict"`), with fuel: `none` on the first
malformed sequence, otherwise the list of decoded code points. -/
def utf8DecodeStrictFuel : Nat → List Nat → Option (List Nat)
  | _, [] => some []
  | 0, _ :: _ => none
  | fuel + 1, b :: rest =>
    match parseUtf8Char (b :: rest) with
    | none => none
    | some (cp, r) => (utf8DecodeStrictFuel fuel r).map (fun s => cp :: s)

/-- Lenient UTF-8 decoding (`errors="ignore"`), with fuel: a malformed byte is
skipped and decoding resumes at the next byte. Skipping a single byte agrees
with CPython's maximal-subpart skipping because a continuation byte alone is
never a valid sequence start and is then skipped as well. -/
def utf8DecodeIgnoreFuel : Nat → List Nat → List Nat
  | _, [] => []
  | 0, _ :: _ => []
  | fuel + 1, b :: rest =>
    match parseUtf8Char (b :: rest) with
    | none => utf8DecodeIgnoreFuel fuel rest
    | some (cp, r) => cp :: utf8DecodeIgnoreFuel fuel r

/-- Strict UTF-8 decoding of a byte list (fuel = length is sufficient). -/
def utf8DecodeStrict (l : List Nat) : Option (List Nat) :=
  utf8DecodeStrictFuel l.length l

/-- Lenient UTF-8 decoding of a byte list (fuel = length is sufficient). -/
def utf8DecodeIgnore (l : List Nat) : List Nat :=
  utf8DecodeIgnoreFuel l.length l

/-- Universal-newline translation performed by Python text-mode reading with
`newline=None`: `"\r\n"` and `"\r"` both become `"\n"` (code points 13, 10). -/
def universalNewlines : List Nat → List Nat
  | [] => []
  | 13 :: 10 :: rest => 10 :: universalNewlines rest
  | 13 :: rest => 10 :: universalNewlines rest
  | c :: rest => c :: universalNewlines rest

/-- The content `file.read()` returns for a file opened with
`open(path, "r", encoding="utf-8", errors="ignore")`
(count_tokens_folder.py line 193): lenient UTF-8 decoding followed by
universal-newline translation. -/
def pythonReadTextIgnore (bytes : List Nat) : List Nat :=
  universalNewlines (utf8DecodeIgnore bytes)

/-! ## Data model (count_tokens_folder.py lines 32-52) -/

/-- `FileResult` dataclass (count_tokens_folder.py lines 32-39); the float
field `processing_time` is dropped (no claim concerns real time). -/
structure FileResult where
  path : String
  token_count : Nat
  file_size : Nat
  error : Option String := none
  deriving DecidableEq, Repr

/-- `ProcessingStats` dataclass (count_tokens_folder.py lines 42-52); the
float field `processing_time` is dropped. `skipped_files` is an `Int` because
Python computes it by subtraction (line 132). -/
structure ProcessingStats where
  total_files : Nat := 0
  processed_files : Nat := 0
  skipped_files : Int := 0
  failed_files : Nat := 0
  total_tokens : Nat := 0
  total_size : Nat := 0
  errors : List String := []
  deriving DecidableEq, Repr

/-- A regular file on disk: base filename (what the glob patterns are matched
against), full path (what goes into results), and raw byte content, `none`
when the file cannot be opened or read (permission/IO error). -/
structure SrcFile where
  name : String
  path : String
  content : Option (List Nat)
  deriving DecidableEq, Repr

/-- A root path handed to `count_tokens_in_folder`: missing, existing but not
a directory, or a directory whose recursive walk (`os.walk`) yields the given
regular files. -/
inductive RootPath where
  | missing (p : String)
  | nondir (p : String)
  | dir (p : String) (files : List SrcFile)
  deriving DecidableEq, Repr

/-- The exceptions `count_tokens_in_folder` can raise (lines 94-98). -/
inductive PyError where
  | fileNotFound (msg : String)
  | notADirectory (msg : String)
  deriving DecidableEq, Repr

/-! ## FolderTokenCounter -/

/-- `FolderTokenCounter._process_single_file` (count_tokens_folder.py lines
188-214). On a readable file: text-mode lenient read, tokenize with the
encoder, record `len(tokens)` and `stat().st_size`; the `except` clause turns
any failure into a result carrying the error string with zero counts. The
external encoder is the parameter `encode`. -/
def process_single_file (encode : List Nat → List Nat) (f : SrcFile) : FileResult :=
  match f.content with
  | some bytes =>
    { path := f.path
      token_count := (encode (pythonReadTextIgnore bytes)).length
      file_size := bytes.length
      error := none }
  | none =>
    { path := f.path
      token_count := 0
      file_size := 0
      error := some "I/O error while reading file" }

/-- The two pattern-filter checks of `_get_files_to_process`
(count_tokens_folder.py lines 150-160): skip when include patterns are given
and none matches the filename; skip when exclude patterns are given and one
matches. The Python stdlib matcher `fnmatch.fnmatch(filename, pattern)` is
the parameter `fn`; an empty list models both `None` and `[]` (both falsy). -/
def passes_patterns (fn : String → String → Bool)
    (include_patterns exclude_patterns : List String) (filename : String) : Bool :=
  if !include_patterns.isEmpty && !(include_patterns.any fun pattern => fn filename pattern) then
    false
  else if !exclude_patterns.isEmpty && (exclude_patterns.any fun pattern => fn filename pattern) then
    false
  else
    true

/-- `FolderTokenCounter._get_files_to_process` (count_tokens_folder.py lines
137-168): keep the walked files that pass both pattern checks and are not
classified binary, in walk order. -/
def get_files_to_process (fn : String → String → Bool)
    (include_patterns exclude_patterns : List String)
    (files : List SrcFile) : List SrcFile :=
  files.filter fun f =>
    passes_patterns fn include_patterns exclude_patterns f.name
      && !(is_binary_file f.content)

/-- `FolderTokenCounter._process_files_parallel` (count_tokens_folder.py lines
170-186): one `_process_single_file` result per submitted file. The thread
pool collects results in completion order; this definition fixes submission
order as one admissible completion order, and the aggregation theorems
quantify over all permutations of this list to cover every schedule. -/
def process_files_parallel (encode : List Nat → List Nat)
    (files : List SrcFile) : List FileResult :=
  files.map (process_single_file encode)

/-- The truthiness test `if result.error:` (count_tokens_folder.py line 120):
true iff the optional error string is present and nonempty. -/
def result_failed (r : FileResult) : Bool :=
  match r.error with
  | some e => e ≠ ""
  | none => false

/-- The error-list entry `f"{result.path}: {result.error}"` built on line 122
for a failed result. -/
def error_line (r : FileResult) : String :=
  r.path ++ ": " ++ r.error.getD ""

/-- One step of the result-compilation loop (count_tokens_folder.py lines
119-130): a failed result increments `failed_files` and appends its error
line; otherwise `processed_files`, `total_tokens` and `total_size` grow. -/
def fold_result (s : ProcessingStats) (r : FileResult) : ProcessingStats :=
  if result_failed r then
    { s with
      failed_files := s.failed_files + 1
      errors := s.errors ++ [error_line r] }
  else
    { s with
      processed_files := s.processed_files + 1
      total_tokens := s.total_tokens + r.token_count
      total_size := s.total_size + r.file_size }

/-- The result-compilation of `count_tokens_in_folder` (count_tokens_folder.py
lines 101-132): start from fresh stats with `total_files` set to the task
count, fold all results, then set
`skipped_files = total_files - processed_files - failed_files`. -/
def compile_stats (total_files : Nat) (results : List FileResult) : ProcessingStats :=
  let s := results.foldl fold_result { total_files := total_files }
  { s with
    skipped_files := (total_files : Int) - s.processed_files - s.failed_files }

/-- `FolderTokenCounter.count_tokens_in_folder` (count_tokens_folder.py lines
73-135): raise `FileNotFoundError` for a missing root and `NotADirectoryError`
for a non-directory root before any discovery; otherwise discover the work
list, set `total_files` to its length, process every task, compile the stats
and return `(stats.total_tokens, stats)`. -/
def count_tokens_in_folder (encode : List Nat → List Nat)
    (fn : String → String → Bool) (folder_path : RootPath)
    (include_patterns exclude_patterns : List String) :
    Except PyError (Nat × ProcessingStats) :=
  match folder_path with
  | .missing p => .error (.fileNotFound ("Folder not found: " ++ p))
  | .nondir p => .error (.notADirectory ("Path is not a directory: " ++ p))
  | .dir _ files =>
    let files_to_process := get_files_to_process fn include_patterns exclude_patterns files
    let results := process_files_parallel encode files_to_process
    let stats := compile_stats files_to_process.length results
    .ok (stats.total_tokens, stats)

/-! ## TokenCounter (count_tokens_file.py) -/

/-- A path handed to the single-file tool: missing, existing but not a regular
file, or a regular file with its raw bytes (`none` = unreadable). -/
inductive SingleFilePath where
  | missing (p : String)
  | notAFile (p : String)
  | file (p : String) (content : Option (List Nat))
  deriving DecidableEq, Repr

/-- The exceptions `TokenCounter.count_tokens_in_file` can raise
(count_tokens_file.py lines 61-83). -/
inductive FileError where
  | fileNotFound (msg : String)
  | valueError (msg : String)
  | permissionError (msg : String)
  deriving DecidableEq, Repr

/-- `TokenCounter.count_tokens_in_file` (count_tokens_file.py lines 44-103):
missing path and non-file path raise; a binary-classified file raises
`ValueError`; the strict text-mode read raises `ValueError` when the bytes do
not decode as UTF-8 (lines 73-81), `PermissionError` when unreadable; on
success returns `(token_count, file_size_bytes)` from the stats dict.
`TokenCounter._is_binary_file` (lines 105-130) is behaviourally identical to
the folder tool's `_is_binary_file` and is embedded by the same definition. -/
def count_tokens_in_file (encode : List Nat → List Nat) :
    SingleFilePath → Except FileError (Nat × Nat)
  | .missing p => .error (.fileNotFound ("File not found: " ++ p))
  | .notAFile p => .error (.valueError ("Path is not a file: " ++ p))
  | .file p content =>
    if is_binary_file content then
      .error (.valueError ("File appears to be binary: " ++ p))
    else
      match content with
      | none => .error (.permissionError ("Permission denied reading file: " ++ p))
      | some bytes =>
        match utf8DecodeStrict bytes with
        | none => .error (.valueError ("Unable to decode file as UTF-8: " ++ p))
        | some s => .ok ((encode (universalNewlines s)).length, bytes.length)

/-! ## Helper lemmas -/

set_option maxRecDepth 8000 in
/-- A successful parse consumes at least one byte. -/
theorem parseUtf8Char_length {l : List Nat} {cp : Nat} {r : List Nat}
    (h : parseUtf8Char l = some (cp, r)) : r.length < l.length := by
  match l with
  | [] => simp [parseUtf8Char] at h
  | b :: rest =>
    simp only [parseUtf8Char] at h
    split at h
    · cases h; simp
    · split at h
      · split at h
        · split at h
          · cases h; simp; omega
          · cases h
        · cases h
      · split at h
        · split at h
          · split at h
            · cases h; simp; omega
            · cases h
          · cases h
        · split at h
          · split at h
            · split at h
              · cases h; simp; omega
              · cases h
            · cases h
          · cases h

/-- On input that decodes strictly, the lenient decoder produces the same
code points (fueled form). -/
theorem utf8DecodeIgnoreFuel_eq_of_strict :
    ∀ (fuel : Nat) (l s : List Nat), l.length ≤ fuel →
      utf8DecodeStrictFuel fuel l = some s → utf8DecodeIgnoreFuel fuel l = s := by
  intro fuel
  induction fuel with
  | zero =>
    intro l s hl h
    match l with
    | [] =>
      simp [utf8DecodeStrictFuel] at h
      simp [utf8DecodeIgnoreFuel, ← h]
  | succ n ih =>
    intro l s hl h
    match l with
    | [] =>
      simp [utf8DecodeStrictFuel] at h
      simp [utf8DecodeIgnoreFuel, ← h]
    | b :: rest =>
      cases hp : parseUtf8Char (b :: rest) with
      | none => simp [utf8DecodeStrictFuel, hp] at h
      | some pr =>
        obtain ⟨cp, r⟩ := pr
        simp only [utf8DecodeStrictFuel, hp] at h
        simp only [utf8DecodeIgnoreFuel, hp]
        cases hs : utf8DecodeStrictFuel n r with
        | none => simp [hs] at h
        | some s0 =>
          rw [hs] at h
          simp only [Option.map_some'] at h
          injection h with h
          have hr : r.length < (b :: rest).length := parseUtf8Char_length hp
          have hr2 : r.length ≤ n := by simp at hr hl; omega
          rw [ih r s0 hr2 hs]
          exact h

/-- On input that decodes strictly, the lenient decoder produces the same
code points. -/
theorem utf8DecodeIgnore_eq_of_strict {l s : List Nat}
    (h : utf8DecodeStrict l = some s) : utf8DecodeIgnore l = s :=
  utf8DecodeIgnoreFuel_eq_of_strict l.length l s (Nat.le_refl _) h

/-- Universal-newline translation is the identity on text containing no
carriage return (code point 13). -/
theorem universalNewlines_of_no_cr :
    ∀ (s : List Nat), 13 ∉ s → universalNewlines s = s := by
  intro s
  induction s with
  | nil => intro _; rfl
  | cons c rest ih =>
    intro h
    have hc : c ≠ 13 := by intro hc; exact h (hc ▸ List.mem_cons_self c rest)
    have hr : 13 ∉ rest := fun hm => h (List.mem_cons_of_mem c hm)
    rw [universalNewlines.eq_def]
    split
    · rename_i heq; simp at heq
    · rename_i heq; cases heq; exact absurd rfl hc
    · rename_i heq; cases heq; exact absurd rfl hc
    · rename_i heq
      cases heq
      rw [ih hr]

/-- The `total_files` field is untouched by the result-compilation loop. -/
theorem foldl_fold_result_total_files (results : List FileResult) (s : ProcessingStats) :
    (results.foldl fold_result s).total_files = s.total_files := by
  induction results generalizing s with
  | nil => rfl
  | cons r rs ih =>
    rw [List.foldl_cons, ih]
    by_cases h : result_failed r <;> simp [fold_result, h]

/-- The result-compilation loop adds one to `processed_files` per
non-failed result. -/
theorem foldl_fold_result_processed (results : List FileResult) (s : ProcessingStats) :
    (results.foldl fold_result s).processed_files
      = s.processed_files + (results.filter (fun r => !result_failed r)).length := by
  induction results generalizing s with
  | nil => rfl
  | cons r rs ih =>
    rw [List.foldl_cons, ih]
    by_cases h : result_failed r <;>
      simp [fold_result, h, List.filter_cons] <;> omega

/-- The result-compilation loop adds one to `failed_files` per failed
result. -/
theorem foldl_fold_result_failed (results : List FileResult) (s : ProcessingStats) :
    (results.foldl fold_result s).failed_files
      = s.failed_files + (results.filter result_failed).length := by
  induction results generalizing s with
  | nil => rfl
  | cons r rs ih =>
    rw [List.foldl_cons, ih]
    by_cases h : result_failed r <;>
      simp [fold_result, h, List.filter_cons] <;> omega

/-- The result-compilation loop sums `token_count` over non-failed results. -/
theorem foldl_fold_result_tokens (results : List FileResult) (s : ProcessingStats) :
    (results.foldl fold_result s).total_tokens
      = s.total_tokens
        + ((results.filter (fun r => !result_failed r)).map FileResult.token_count).sum := by
  induction results generalizing s with
  | nil => rfl
  | cons r rs ih =>
    rw [List.foldl_cons, ih]
    by_cases h : result_failed r <;>
      simp [fold_result, h, List.filter_cons] <;> omega

/-- The result-compilation loop sums `file_size` over non-failed results. -/
theorem foldl_fold_result_size (results : List FileResult) (s : ProcessingStats) :
    (results.foldl fold_result s).total_size
      = s.total_size
        + ((results.filter (fun r => !result_failed r)).map FileResult.file_size).sum := by
  induction results generalizing s with
  | nil => rfl
  | cons r rs ih =>
    rw [List.foldl_cons, ih]
    by_cases h : result_failed r <;>
      simp [fold_result, h, List.filter_cons] <;> omega

theorem compile_stats_total_files (total_files : Nat) (results : List FileResult) :
    (compile_stats total_files results).total_files = total_files := by
  simp [compile_stats, foldl_fold_result_total_files]

theorem compile_stats_processed (total_files : Nat) (results : List FileResult) :
    (compile_stats total_files results).processed_files
      = (results.filter (fun r => !result_failed r)).length := by
  simp [compile_stats, foldl_fold_result_processed]

theorem compile_stats_failed (total_files : Nat) (results : List FileResult) :
    (compile_stats total_files results).failed_files
      = (results.filter result_failed).length := by
  simp [compile_stats, foldl_fold_result_failed]

theorem compile_stats_tokens (total_files : Nat) (results : List FileResult) :
    (compile_stats total_files results).total_tokens
      = ((results.filter (fun r => !result_failed r)).map FileResult.token_count).sum := by
  simp [compile_stats, foldl_fold_result_tokens]

theorem compile_stats_size (total_files : Nat) (results : List FileResult) :
    (compile_stats total_files results).total_size
      = ((results.filter (fun r => !result_failed r)).map FileResult.file_size).sum := by
  simp [compile_stats, foldl_fold_result_size]

theorem compile_stats_skipped (total_files : Nat) (results : List FileResult) :
    (compile_stats total_files results).skipped_files
      = (total_files : Int)
        - (results.filter (fun r => !result_failed r)).length
        - (results.filter result_failed).length := by
  simp [compile_stats, foldl_fold_result_processed, foldl_fold_result_failed]

/-- Splitting a list by a predicate preserves length. -/
theorem length_filter_add_length_filter_not {α : Type} (l : List α) (p : α → Bool) :
    (l.filter p).length + (l.filter (fun a => !p a)).length = l.length := by
  induction l with
  | nil => rfl
  | cons a as ih =>
    by_cases h : p a <;> simp [List.filter_cons, h] <;> omega

/-- Whenever exactly one result arrives per discovered task,
`skipped_files` is zero. -/
theorem compile_stats_skipped_zero (total_files : Nat) (results : List FileResult)
    (h : results.length = total_files) :
    (compile_stats total_files results).skipped_files = 0 := by
  rw [compile_stats_skipped]
  have := length_filter_add_length_filter_not results result_failed
  omega

/-- The four numeric aggregates of `compile_stats` only depend on the
multiset of results, not on their arrival order. -/
theorem compile_stats_perm (total_files : Nat) {results results2 : List FileResult}
    (h : results.Perm results2) :
    (compile_stats total_files results).total_tokens
        = (compile_stats total_files results2).total_tokens
    ∧ (compile_stats total_files results).total_size
        = (compile_stats total_files results2).total_size
    ∧ (compile_stats total_files results).processed_files
        = (compile_stats total_files results2).processed_files
    ∧ (compile_stats total_files results).failed_files
        = (compile_stats total_files results2).failed_files := by
  refine ⟨?_, ?_, ?_, ?_⟩
  · rw [compile_stats_tokens, compile_stats_tokens]
    exact ((h.filter _).map _).sum_eq
  · rw [compile_stats_size, compile_stats_size]
    exact ((h.filter _).map _).sum_eq
  · rw [compile_stats_processed, compile_stats_processed]
    exact (h.filter _).length_eq
  · rw [compile_stats_failed, compile_stats_failed]
    exact (h.filter _).length_eq

/-! ## Claim theorems -/

/-- C2: for every file whose byte content decodes as UTF-8 without error, the
FileResult produced by `_process_single_file` is successful (no error), its
`token_count` is the length of the encoder output on the decoded content (the
content as read in Python text mode; when the decoded text has no carriage
return this is literally `encode` of the strict UTF-8 decoding), and its
`file_size` is the on-disk byte size. -/
theorem claim_C2 (encode : List Nat → List Nat) (f : SrcFile) (bytes s : List Nat)
    (hc : f.content = some bytes) (hs : utf8DecodeStrict bytes = some s) :
    (process_single_file encode f).error = none
    ∧ (process_single_file encode f).token_count = (encode (universalNewlines s)).length
    ∧ (13 ∉ s → (process_single_file encode f).token_count = (encode s).length)
    ∧ (process_single_file encode f).file_size = bytes.length := by
  have hig : utf8DecodeIgnore bytes = s := utf8DecodeIgnore_eq_of_strict hs
  refine ⟨?_, ?_, ?_, ?_⟩
  · simp [process_single_file, hc]
  · simp [process_single_file, hc, pythonReadTextIgnore, hig]
  · intro hcr
    simp [process_single_file, hc, pythonReadTextIgnore, hig,
      universalNewlines_of_no_cr s hcr]
  · simp [process_single_file, hc]

/-- Witness for C2: a two-byte ASCII file under the identity encoder. -/
theorem claim_C2_witness :
    utf8DecodeStrict [104, 105] = some [104, 105]
    ∧ (process_single_file (fun l => l) ⟨"a.txt", "p/a.txt", some [104, 105]⟩).error = none
    ∧ (process_single_file (fun l => l) ⟨"a.txt", "p/a.txt", some [104, 105]⟩).token_count = 2
    ∧ (process_single_file (fun l => l) ⟨"a.txt", "p/a.txt", some [104, 105]⟩).file_size = 2 := by
  have h := claim_C2 (fun l => l) ⟨"a.txt", "p/a.txt", some [104, 105]⟩
    [104, 105] [104, 105] rfl (by decide)
  exact ⟨by decide, h.1, by rw [h.2.2.1 (by decide)]; rfl, h.2.2.2⟩

/-- C4: `_process_single_file` is total (it never raises past its boundary:
the embedding is a total function whose `except` branch is the `none`-content
case), it reports the file it was given, and every result it produces is
mutually exclusive: either no error, or a nonempty error string together with
`token_count = 0` and `file_size = 0`. -/
theorem claim_C4 (encode : List Nat → List Nat) (f : SrcFile) :
    (process_single_file encode f).path = f.path
    ∧ ((process_single_file encode f).error = none
      ∨ ∃ e, (process_single_file encode f).error = some e ∧ e ≠ ""
          ∧ (process_single_file encode f).token_count = 0
          ∧ (process_single_file encode f).file_size = 0) := by
  cases hf : f.content with
  | none =>
    refine ⟨by simp [process_single_file, hf], Or.inr ?_⟩
    exact ⟨"I/O error while reading file", by simp [process_single_file, hf], by decide,
      by simp [process_single_file, hf], by simp [process_single_file, hf]⟩
  | some bytes =>
    exact ⟨by simp [process_single_file, hf], Or.inl (by simp [process_single_file, hf])⟩

/-- C6: `_is_binary_file` is true on an unreadable file (I/O error while
sampling), false on a zero-length file, and on a readable file it is true
exactly when the leading chunk of up to 1024 bytes is nonempty and either
holds a null byte or has strictly fewer than 70 percent of its bytes
printable (0x20-0x7E or tab, newline, carriage return). -/
theorem claim_C6 (bytes : List Nat) :
    is_binary_file none = true
    ∧ (bytes = [] → is_binary_file (some bytes) = false)
    ∧ (is_binary_file (some bytes) = true ↔
        bytes.take 1024 ≠ []
        ∧ (0 ∈ bytes.take 1024
          ∨ 10 * ((bytes.take 1024).filter printable_byte).length
              < 7 * (bytes.take 1024).length)) := by
  refine ⟨rfl, ?_, ?_⟩
  · rintro rfl; rfl
  · rw [is_binary_file]
    split_ifs with h1 h2
    · simp [h1]
    · simp [h1, h2]
    · simp [h1, h2]

/-- Witness for C6: the empty file is text, a chunk with a null byte is
binary, and an all-printable chunk is text. -/
theorem claim_C6_witness :
    is_binary_file (some ([] : List Nat)) = false
    ∧ is_binary_file (some [0, 65]) = true
    ∧ ¬ is_binary_file (some [65, 66, 67]) = true :=
  ⟨(claim_C6 []).2.1 rfl,
   (claim_C6 [0, 65]).2.2.mpr (by decide),
   fun h => by have := (claim_C6 [65, 66, 67]).2.2.mp h; revert this; decide⟩

/-- C8: `count_tokens_in_folder` raises `FileNotFoundError` on a missing root
and `NotADirectoryError` on a non-directory root; in the embedding both checks
happen before discovery and processing by construction (they are the first two
branches of the definition), and no stats value is produced. -/
theorem claim_C8 (encode : List Nat → List Nat) (fn : String → String → Bool)
    (include_patterns exclude_patterns : List String) (p : String) :
    count_tokens_in_folder encode fn (.missing p) include_patterns exclude_patterns
        = .error (.fileNotFound ("Folder not found: " ++ p))
    ∧ count_tokens_in_folder encode fn (.nondir p) include_patterns exclude_patterns
        = .error (.notADirectory ("Path is not a directory: " ++ p)) :=
  ⟨rfl, rfl⟩

/-- C9: on content that is not valid UTF-8 yet not binary-classified (nine
printable bytes followed by a lone continuation byte 0x80), the single-file
tool raises a decode `ValueError`, while the folder tool's
`_process_single_file` returns a successful result that tokenizes the
decodable prefix — the two tools diverge on decode failures. -/
theorem claim_C9 (encode : List Nat → List Nat) :
    is_binary_file (some [97, 97, 97, 97, 97, 97, 97, 97, 97, 128]) = false
    ∧ count_tokens_in_file encode
        (.file "f.txt" (some [97, 97, 97, 97, 97, 97, 97, 97, 97, 128]))
        = .error (.valueError "Unable to decode file as UTF-8: f.txt")
    ∧ (process_single_file encode
        ⟨"f.txt", "d/f.txt", some [97, 97, 97, 97, 97, 97, 97, 97, 97, 128]⟩).error = none
    ∧ (process_single_file encode
        ⟨"f.txt", "d/f.txt", some [97, 97, 97, 97, 97, 97, 97, 97, 97, 128]⟩).token_count
        = (encode [97, 97, 97, 97, 97, 97, 97, 97, 97]).length :=
  ⟨by decide, rfl, rfl, rfl⟩

/-- C3: for every result list folded by `count_tokens_in_folder` (whose error
strings, produced by `str(e)` on a caught exception, are never the empty
string — the hypothesis), the compiled stats satisfy: `total_tokens` is the
sum of `token_count` over error-free results, `total_size` the sum of
`file_size` over error-free results, `failed_files` the number of results
with an error, and `total_files = processed_files + failed_files +
skipped_files`. -/
theorem claim_C3 (total_files : Nat) (results : List FileResult)
    (h : ∀ r ∈ results, r.error ≠ some "") :
    (compile_stats total_files results).total_tokens
        = ((results.filter (fun r => r.error.isNone)).map FileResult.token_count).sum
    ∧ (compile_stats total_files results).total_size
        = ((results.filter (fun r => r.error.isNone)).map FileResult.file_size).sum
    ∧ (compile_stats total_files results).failed_files
        = (results.filter (fun r => r.error.isSome)).length
    ∧ ((compile_stats total_files results).total_files : Int)
        = (compile_stats total_files results).processed_files
          + (compile_stats total_files results).failed_files
          + (compile_stats total_files results).skipped_files := by
  have hfilt : results.filter (fun r => !result_failed r)
      = results.filter (fun r => r.error.isNone) := by
    apply List.filter_congr
    intro r hr
    cases he : r.error with
    | none => simp [result_failed, he]
    | some e =>
      have hne : e ≠ "" := fun heq => (h r hr) (by rw [he, heq])
      simp [result_failed, he, hne]
  have hfilt2 : results.filter result_failed
      = results.filter (fun r => r.error.isSome) := by
    apply List.filter_congr
    intro r hr
    cases he : r.error with
    | none => simp [result_failed, he]
    | some e =>
      have hne : e ≠ "" := fun heq => (h r hr) (by rw [he, heq])
      simp [result_failed, he, hne]
  refine ⟨?_, ?_, ?_, ?_⟩
  · rw [compile_stats_tokens, hfilt]
  · rw [compile_stats_size, hfilt]
  · rw [compile_stats_failed, hfilt2]
  · rw [compile_stats_total_files, compile_stats_processed, compile_stats_failed,
      compile_stats_skipped]
    ring

/-- Witness for C3: one successful and one failed result. -/
theorem claim_C3_witness :
    (∀ r ∈ ([⟨"a", 7, 3, none⟩, ⟨"b", 0, 0, some "boom"⟩] : List FileResult),
        r.error ≠ some "")
    ∧ (compile_stats 2 [⟨"a", 7, 3, none⟩, ⟨"b", 0, 0, some "boom"⟩]).total_tokens = 7
    ∧ (compile_stats 2 [⟨"a", 7, 3, none⟩, ⟨"b", 0, 0, some "boom"⟩]).failed_files = 1 := by
  have h := claim_C3 2 [⟨"a", 7, 3, none⟩, ⟨"b", 0, 0, some "boom"⟩] (by decide)
  exact ⟨by decide, by rw [h.1]; decide, by rw [h.2.2.1]; decide⟩

/-- C5: a filename passes the discovery pattern filter iff (the include list
is empty or it matches at least one include pattern) and (the exclude list is
empty or it matches no exclude pattern); membership in the work list is
exactly pattern passage plus non-binary content (per the walker design the
binary classifier runs after the pattern filter); in particular a file
matching any exclude pattern never enters the work list, even if it also
matches an include pattern. -/
theorem claim_C5 (fn : String → String → Bool)
    (include_patterns exclude_patterns : List String)
    (files : List SrcFile) (f : SrcFile) :
    (passes_patterns fn include_patterns exclude_patterns f.name = true ↔
      ((include_patterns = [] ∨ ∃ p ∈ include_patterns, fn f.name p = true)
        ∧ (exclude_patterns = [] ∨ ∀ p ∈ exclude_patterns, fn f.name p = false)))
    ∧ (f ∈ get_files_to_process fn include_patterns exclude_patterns files ↔
        (f ∈ files ∧ passes_patterns fn include_patterns exclude_patterns f.name = true
          ∧ is_binary_file f.content = false))
    ∧ ((∃ p ∈ exclude_patterns, fn f.name p = true) →
        f ∉ get_files_to_process fn include_patterns exclude_patterns files) := by
  have hincP : (!include_patterns.isEmpty
        && !(include_patterns.any fun pattern => fn f.name pattern)) = false ↔
      (include_patterns = [] ∨ ∃ p ∈ include_patterns, fn f.name p = true) := by
    cases include_patterns with
    | nil => simp
    | cons a as =>
      simp [List.any_eq_true]
      cases h : fn f.name a <;> simp [h]
  have hexcP : (!exclude_patterns.isEmpty
        && (exclude_patterns.any fun pattern => fn f.name pattern)) = false ↔
      (exclude_patterns = [] ∨ ∀ p ∈ exclude_patterns, fn f.name p = false) := by
    cases exclude_patterns with
    | nil => simp
    | cons a as => simp [List.any_eq_false]
  have hpat : passes_patterns fn include_patterns exclude_patterns f.name = true ↔
      ((include_patterns = [] ∨ ∃ p ∈ include_patterns, fn f.name p = true)
        ∧ (exclude_patterns = [] ∨ ∀ p ∈ exclude_patterns, fn f.name p = false)) := by
    rw [← hincP, ← hexcP, passes_patterns]
    split_ifs with h1 h2
    · simp [h1]
    · simp [h2]
    · simp [Bool.not_eq_true] at h1 h2
      simp
      exact ⟨h1, h2⟩
  have hmem : f ∈ get_files_to_process fn include_patterns exclude_patterns files ↔
      (f ∈ files ∧ passes_patterns fn include_patterns exclude_patterns f.name = true
        ∧ is_binary_file f.content = false) := by
    simp [get_files_to_process, List.mem_filter, Bool.and_eq_true, Bool.not_eq_true',
      and_assoc]
  refine ⟨hpat, hmem, ?_⟩
  rintro ⟨p, hp, hfnp⟩ hin
  obtain ⟨-, hpass, -⟩ := hmem.mp hin
  obtain ⟨-, hexc⟩ := hpat.mp hpass
  rcases hexc with rfl | hall
  · exact absurd hp (List.not_mem_nil p)
  · rw [hall p hp] at hfnp
    exact Bool.false_ne_true hfnp

/-- Witness for C5: a file matching both the include and the exclude pattern
is kept out of the work list. -/
theorem claim_C5_witness :
    (∃ p ∈ (["x.txt"] : List String),
        (fun (n q : String) => n == q) "x.txt" p = true)
    ∧ (⟨"x.txt", "d/x.txt", some [97]⟩ : SrcFile)
        ∉ get_files_to_process (fun n q => n == q) ["x.txt"] ["x.txt"]
            [⟨"x.txt", "d/x.txt", some [97]⟩] :=
  ⟨⟨"x.txt", by simp⟩,
   (claim_C5 (fun n q => n == q) ["x.txt"] ["x.txt"]
      [⟨"x.txt", "d/x.txt", some [97]⟩] ⟨"x.txt", "d/x.txt", some [97]⟩).2.2
     ⟨"x.txt", by simp, by simp⟩⟩

/-- C7: the aggregation fold is order-independent — permuting the result list
leaves `total_tokens`, `total_size`, `processed_files` and `failed_files`
unchanged; hence any two completion orders of the dispatcher on the same work
list (all that a different worker count can change) compile to the same
`total_tokens`, `processed_files` and `failed_files`. -/
theorem claim_C7 (total_files : Nat) (results results2 : List FileResult)
    (hperm : results.Perm results2) :
    ((compile_stats total_files results).total_tokens
        = (compile_stats total_files results2).total_tokens
      ∧ (compile_stats total_files results).total_size
        = (compile_stats total_files results2).total_size
      ∧ (compile_stats total_files results).processed_files
        = (compile_stats total_files results2).processed_files
      ∧ (compile_stats total_files results).failed_files
        = (compile_stats total_files results2).failed_files)
    ∧ ∀ (encode : List Nat → List Nat) (files : List SrcFile)
        (r1 r2 : List FileResult),
        r1.Perm (process_files_parallel encode files) →
        r2.Perm (process_files_parallel encode files) →
        (compile_stats files.length r1).total_tokens
            = (compile_stats files.length r2).total_tokens
        ∧ (compile_stats files.length r1).processed_files
            = (compile_stats files.length r2).processed_files
        ∧ (compile_stats files.length r1).failed_files
            = (compile_stats files.length r2).failed_files := by
  refine ⟨compile_stats_perm total_files hperm, ?_⟩
  intro encode files r1 r2 h1 h2
  have h12 := compile_stats_perm files.length (h1.trans h2.symm)
  exact ⟨h12.1, h12.2.2.1, h12.2.2.2⟩

/-- Witness for C7: swapping a two-element result list preserves the token
total. -/
theorem claim_C7_witness :
    (([⟨"a", 5, 1, none⟩, ⟨"b", 0, 0, some "x"⟩] : List FileResult).Perm
        [⟨"b", 0, 0, some "x"⟩, ⟨"a", 5, 1, none⟩])
    ∧ (compile_stats 2 [⟨"a", 5, 1, none⟩, ⟨"b", 0, 0, some "x"⟩]).total_tokens
        = (compile_stats 2 [⟨"b", 0, 0, some "x"⟩, ⟨"a", 5, 1, none⟩]).total_tokens :=
  ⟨List.Perm.swap _ _ _,
   (claim_C7 2 _ _ (List.Perm.swap ⟨"b", 0, 0, some "x"⟩ ⟨"a", 5, 1, none⟩ [])).1.1⟩

/-- C10: the dispatcher hands back exactly one result per discovered task
(in every completion order), so `total_files` equals the result count and the
computed `skipped_files` is 0 on every run of `count_tokens_in_folder`,
no matter how many files the pattern filters or the binary classifier
excluded beforehand. -/
theorem claim_C10 (encode : List Nat → List Nat) (fn : String → String → Bool)
    (p : String) (files : List SrcFile)
    (include_patterns exclude_patterns : List String)
    (results : List FileResult)
    (hperm : results.Perm (process_files_parallel encode
        (get_files_to_process fn include_patterns exclude_patterns files))) :
    results.length
        = (get_files_to_process fn include_patterns exclude_patterns files).length
    ∧ (compile_stats
        (get_files_to_process fn include_patterns exclude_patterns files).length
        results).skipped_files = 0
    ∧ ∀ t s, count_tokens_in_folder encode fn (.dir p files)
          include_patterns exclude_patterns = .ok (t, s) →
        s.skipped_files = 0 := by
  have hlen : results.length
      = (get_files_to_process fn include_patterns exclude_patterns files).length := by
    rw [hperm.length_eq]
    simp [process_files_parallel]
  refine ⟨hlen, compile_stats_skipped_zero _ _ hlen, ?_⟩
  intro t s hok
  simp only [count_tokens_in_folder] at hok
  cases hok
  exact compile_stats_skipped_zero _ _ (by simp [process_files_parallel])

/-- Witness for C10: a one-file directory, identity completion order. -/
theorem claim_C10_witness :
    ((process_files_parallel (fun l => l)
        (get_files_to_process (fun _ _ => true) [] [] [⟨"a", "d/a", some [65]⟩])).Perm
      (process_files_parallel (fun l => l)
        (get_files_to_process (fun _ _ => true) [] [] [⟨"a", "d/a", some [65]⟩])))
    ∧ (compile_stats
        (get_files_to_process (fun _ _ => true) [] [] [⟨"a", "d/a", some [65]⟩]).length
        (process_files_parallel (fun l => l)
          (get_files_to_process (fun _ _ => true) [] [] [⟨"a", "d/a", some [65]⟩]))).skipped_files
      = 0 :=
  ⟨List.Perm.refl _,
   (claim_C10 (fun l => l) (fun _ _ => true) "d" [⟨"a", "d/a", some [65]⟩] [] [] _
      (List.Perm.refl _)).2.1⟩

/-- C1 counterexample: on a directory holding exactly one 12-token text file
("hello world!" under the per-code-point encoder), one 0-byte file and one
binary file with a leading null byte, `count_tokens_in_folder` does report
`processed_files = 2`, `failed_files = 0` and `total_tokens = 12` — but
`skipped_files` is 0, not 1 as the claim states: `total_files` is set to the
length of the post-filter work list (line 108), which the binary file never
enters, so the subtraction on line 132 cannot see it. -/
theorem claim_C1_counterexample :
    count_tokens_in_folder (fun l => l) (fun _ _ => true)
        (.dir "d"
          [⟨"a.txt", "d/a.txt",
              some [104, 101, 108, 108, 111, 32, 119, 111, 114, 108, 100, 33]⟩,
           ⟨"empty.txt", "d/empty.txt", some []⟩,
           ⟨"img.bin", "d/img.bin", some [0, 1, 2]⟩]) [] []
      = .ok (12, { total_files := 2, processed_files := 2, skipped_files := 0,
                   failed_files := 0, total_tokens := 12, total_size := 12,
                   errors := [] })
    ∧ ({ total_files := 2, processed_files := 2, skipped_files := 0,
         failed_files := 0, total_tokens := 12, total_size := 12,
         errors := [] } : ProcessingStats).skipped_files ≠ 1 :=
  ⟨rfl, by decide⟩

/-- C1 amended: for a directory containing exactly one text file that
tokenizes to 12 tokens, one 0-byte file, and one binary file (leading null
byte), `count_tokens_in_folder` (with any worker count — scheduling only
permutes completion order, which C7 shows is irrelevant) yields
`processed_files = 2`, `failed_files = 0`, `total_tokens = 12`, and
`skipped_files = 0` — not 1 — because `total_files` counts only post-filter
tasks and the binary-classified file never becomes a task. -/
theorem claim_C1_amended (encode : List Nat → List Nat) (fn : String → String → Bool)
    (d n1 n2 n3 p1 p2 p3 : String) (bs1 bs3 : List Nat)
    (h1 : is_binary_file (some bs1) = false)
    (h12 : (encode (pythonReadTextIgnore bs1)).length = 12)
    (hemp : (encode []).length = 0)
    (h3 : ∃ t, bs3 = 0 :: t) :
    count_tokens_in_folder encode fn
        (.dir d [⟨n1, p1, some bs1⟩, ⟨n2, p2, some []⟩, ⟨n3, p3, some bs3⟩]) [] []
      = .ok (12, { total_files := 2, processed_files := 2, skipped_files := 0,
                   failed_files := 0, total_tokens := 12,
                   total_size := bs1.length, errors := [] }) := by
  obtain ⟨t, rfl⟩ := h3
  have hbin3 : is_binary_file (some (0 :: t)) = true := by
    have htake : (0 :: t).take 1024 = 0 :: t.take 1023 := rfl
    rw [is_binary_file]
    simp [htake]
  have hbin2 : is_binary_file (some ([] : List Nat)) = false := rfl
  have hpass : ∀ name, passes_patterns fn [] [] name = true := fun _ => rfl
  simp only [count_tokens_in_folder, get_files_to_process, List.filter,
    process_files_parallel, hpass, h1, hbin2, hbin3, Bool.not_false, Bool.not_true,
    Bool.and_self, Bool.and_false, List.map_cons, List.map_nil]
  simp only [process_single_file, compile_stats, fold_result, result_failed,
    List.foldl_cons, List.foldl_nil, List.length_cons, List.length_nil]
  have hempx : (encode (pythonReadTextIgnore [])).length = 0 := hemp
  simp [h12, hempx]

/-- Witness for the amended C1: the concrete scenario of the counterexample
("hello world!" under the per-code-point encoder, an empty file, and a binary
file starting with a null byte). -/
theorem claim_C1_amended_witness :
    is_binary_file
        (some [104, 101, 108, 108, 111, 32, 119, 111, 114, 108, 100, 33]) = false
    ∧ ((fun (l : List Nat) => l)
        (pythonReadTextIgnore
          [104, 101, 108, 108, 111, 32, 119, 111, 114, 108, 100, 33])).length = 12
    ∧ ((fun (l : List Nat) => l) []).length = 0
    ∧ count_tokens_in_folder (fun l => l) (fun _ _ => true)
        (.dir "d"
          [⟨"a.txt", "d/a.txt",
              some [104, 101, 108, 108, 111, 32, 119, 111, 114, 108, 100, 33]⟩,
           ⟨"empty.txt", "d/empty.txt", some []⟩,
           ⟨"img.bin", "d/img.bin", some [0, 1, 2]⟩]) [] []
      = .ok (12, { total_files := 2, processed_files := 2, skipped_files := 0,
                   failed_files := 0, total_tokens := 12, total_size := 12,
                   errors := [] }) :=
  ⟨by decide, by decide, rfl,
   claim_C1_amended (fun l => l) (fun _ _ => true) "d" "a.txt" "empty.txt" "img.bin"
     "d/a.txt" "d/empty.txt" "d/img.bin"
     [104, 101, 108, 108, 111, 32, 119, 111, 114, 108, 100, 33] [0, 1, 2]
     (by decide) (by decide) rfl ⟨[1, 2], rfl⟩⟩

end TokenCounter
